import Mathlib

/-!
Verification development for the fasta2a-poc multi-agent orchestration demo.

The definitions below are a shallow embedding of the repository's
orchestration/worker-protocol core:

* Python string primitives used by the agents (`str.strip`, `str.lower`,
  substring containment, slicing) modelled over `String` via `List Char`;
* the leaf-agent fallback and post-processing logic of
  `src/agents/generic_agent.py` (`ConfigurableWorker`);
* the A2A client `get_agent_message` of `src/agents/director_worker.py`,
  with HTTP effects modelled as an environment of responses and Python
  exceptions as an `Except` layer;
* the storage-operation traces emitted by the three workers
  (`ConfigurableWorker.run_task`, `DirectorWorker.run_task` in
  `src/agents/director_worker.py`, and the legacy `DirectorWorker.run_task`
  in `src/director_agent.py`);
* the Task/Context Store, modelled from the spec because the backing
  `fasta2a.storage.InMemoryStorage` is an external dependency whose code is
  not part of this repository.
-/

/-! ## Python string primitives -/

/-- The whitespace characters stripped by Python's `str.strip` (ASCII subset;
the code under verification only ever produces ASCII whitespace). -/
def pyIsSpace (c : Char) : Bool :=
  c == ' ' || c == '\t' || c == '\n' || c == '\r' || c == '\x0b' || c == '\x0c'

/-- Left strip on character lists: drop leading whitespace. -/
def lstripList (l : List Char) : List Char := l.dropWhile pyIsSpace

/-- Right strip on character lists: drop trailing whitespace. -/
def rstripList (l : List Char) : List Char := (l.reverse.dropWhile pyIsSpace).reverse

/-- Python `str.strip`: drop leading and trailing whitespace. -/
def stripList (l : List Char) : List Char := rstripList (lstripList l)

/-- Python `s.strip()`. -/
def pyStrip (s : String) : String := ⟨stripList s.data⟩

/-- Python `s.rstrip()` (used to describe what `strip` does to the tail of a
composed string). -/
def pyRstrip (s : String) : String := ⟨rstripList s.data⟩

/-- Python `s.lower()`, modelled as character-wise `Char.toLower`. -/
def pyLower (s : String) : String := ⟨s.data.map Char.toLower⟩

/-- Python `needle in hay` (substring containment). -/
def pyContains (hay needle : String) : Bool := decide (needle.data <:+: hay.data)

/-- Python `len(s)` (counts code points, like Lean's `String.length`). -/
def pyLen (s : String) : Nat := s.data.length

/-- Python `s[:n]` (slice of the first `n` code points). -/
def pyTake (s : String) (n : Nat) : String := ⟨s.data.take n⟩

/-! ## Leaf-agent logic (`src/agents/generic_agent.py`) -/

/-- `ConfigurableWorker._fallback_process`, classifier branch
(generic_agent.py lines 125-133): keyword-based classification.  The
`fallback_keywords` dict is modelled as an ordered association list, matching
Python's insertion-ordered dict iteration.  Returns the first label whose
keyword list matches the lowered text, else the last configured category,
else `"general"`. -/
def fallbackClassify (fallbackKeywords : List (String × List String))
    (categories : List String) (text : String) : String :=
  let textLower := pyLower text
  match fallbackKeywords.find? (fun kw => kw.2.any (fun k => pyContains textLower k)) with
  | some kw => kw.1
  | none =>
    match categories.getLast? with
    | some c => c
    | none => "general"

/-- `ConfigurableWorker._fallback_process`, summarizer branch
(generic_agent.py lines 135-140): truncation-based summary.  If
`len(text) > fallback_length`, return `text[:fallback_length] + "..."`, else
return `text` unchanged. -/
def fallbackSummarize (fallbackLength : Nat) (text : String) : String :=
  if fallbackLength < pyLen text then pyTake text fallbackLength ++ "..." else text

/-- `ConfigurableWorker._post_process_response`, classifier branch
(generic_agent.py lines 108-116): the LLM response is stripped and lowered,
then the first configured category occurring in it is returned; if none
occurs, the FIRST configured category is the default (else `"general"`). -/
def postProcessClassify (categories : List String) (response : String) : String :=
  let responseLower := pyLower (pyStrip response)
  match categories.find? (fun c => pyContains responseLower c) with
  | some c => c
  | none =>
    match categories.head? with
    | some c => c
    | none => "general"

/-- The categories of the classifier configuration named by the spec's
testable property: `["insurance", "medical", "general"]`. -/
def claimCategories : List String := ["insurance", "medical", "general"]

/-- The fallback keywords of the classifier configuration named by the spec:
`\x7b"insurance": ["claim"]\x7d`. -/
def claimFallbackKeywords : List (String × List String) := [("insurance", ["claim"])]

/-! ## Data model: messages, tasks, the Task/Context Store -/

/-- A protocol message (fasta2a `Message` as used by this code: a role, a list
of text parts, and a message identifier). -/
structure Message where
  role : String
  parts : List String
  messageId : String
deriving DecidableEq

/-- TaskRec lifecycle states (spec section 3). -/
inductive TaskState where
  | submitted
  | working
  | completed
  | failed
  | canceled
deriving DecidableEq

/-- A task record: identifier, context identifier, state, message history and
optional error description (spec section 3). -/
structure TaskRec where
  id : String
  contextId : String
  state : TaskState
  history : List Message
  error : Option String
deriving DecidableEq

/-- A value stored under a context identifier.  The well-behaved workers store
a list of messages; the legacy director (`src/director_agent.py`) passes a
single message object to `update_context`, which Python happily stores as-is,
so the model keeps both shapes. -/
inductive ContextVal where
  | msgs (l : List Message)
  | single (m : Message)
deriving DecidableEq

/-- The messages retrievable from a stored context value. -/
def contextMessages : ContextVal → List Message
  | .msgs l => l
  | .single m => [m]

/-- A storage operation issued by a worker against the Task/Context Store. -/
inductive StoreOp where
  | updateTask (id : String) (state : TaskState) (newMessages : List Message)
      (error : Option String)
  | updateContext (contextId : String) (value : ContextVal)
deriving DecidableEq

/-- Whether an operation is an `update_task` setting the failed state. -/
def StoreOp.isFailedUpdate : StoreOp → Bool
  | .updateTask _ .failed _ _ => true
  | _ => false

/-- The in-memory Task/Context Store state: two maps keyed by string
identifiers. -/
structure Store where
  tasks : String → Option TaskRec
  contexts : String → Option ContextVal

/-- Modelled from the spec: the Task/Context Store semantics of
`fasta2a.storage.InMemoryStorage`, an external dependency whose code is not in
this repository.  Per spec section 4.1, `update_task` "merges partial fields
(state, error, appended messages) into the existing record" — it sets the
state, appends the new messages to the task history and records the error;
`update_context` overwrites the value stored under the context identifier. -/
def applyOp (st : Store) : StoreOp → Store
  | .updateTask id s msgs err =>
    { st with
      tasks := fun i =>
        if i = id then
          (st.tasks i).map (fun t =>
            { t with
              state := s
              history := t.history ++ msgs
              error := match err with | some e => some e | none => t.error })
        else st.tasks i }
  | .updateContext cid v =>
    { st with contexts := fun c => if c = cid then some v else st.contexts c }

/-- Apply a trace of storage operations in order. -/
def applyOps (st : Store) (ops : List StoreOp) : Store := ops.foldl applyOp st

/-! ## A2A client (`get_agent_message` in `src/agents/director_worker.py`) -/

/-- The exceptions distinguished by `get_agent_message`'s handlers:
`httpx.HTTPStatusError` (with a status code), `httpx.RequestError` (with a
message) and any other exception (with its string representation). -/
inductive PyErr where
  | httpStatus (code : Nat)
  | request (msg : String)
  | other (msg : String)
deriving DecidableEq

/-- The error-outcome string each caught exception is converted to
(director_worker.py lines 102-109). -/
def pyErrString : PyErr → String
  | .httpStatus c => "[Error: HTTP " ++ toString c ++ "]"
  | .request m => "[Error: Request failed: " ++ m ++ "]"
  | .other m => "[Error: " ++ m ++ "]"

/-- The `result` object of a `message/send` JSON-RPC response: an optional
task identifier (absent key and `None` modelled as `none`). -/
structure SendResult where
  id : Option String
deriving DecidableEq

/-- A `message/send` JSON-RPC response: an optional `result` object. -/
structure SendResp where
  result : Option SendResult
deriving DecidableEq

/-- A part of a message in a polled task's history: `parts[0].get("text", "")`
reads the optional `text` field. -/
structure PartObj where
  text : Option String
deriving DecidableEq

/-- A message in a polled task's history. -/
structure MsgObj where
  parts : List PartObj
deriving DecidableEq

/-- The `result` object of a `tasks/get` response: `task.get("state", "")`,
`task.get("history", [])` and `task.get("error", "Unknownown...")` read these
optional fields. -/
structure TaskObj where
  state : Option String
  history : List MsgObj
  error : Option String
deriving DecidableEq

/-- A `tasks/get` JSON-RPC response: an optional `result` object. -/
structure PollResp where
  result : Option TaskObj
deriving DecidableEq

/-- The network environment a `get_agent_message` call runs against: the
response (or exception) of the initial `message/send` POST, and the response
(or exception) of the `i`-th `tasks/get` POST. -/
structure A2AEnv where
  send : Except PyErr SendResp
  poll : Nat → Except PyErr PollResp

/-- Python truthiness test `not task_id` on the extracted task identifier:
true when the field is absent/`None` or the empty string. -/
def pyFalsyId (id : Option String) : Bool :=
  match id with
  | none => true
  | some s => s == ""

/-- Text extraction from a completed task (director_worker.py lines 87-94):
the last history message's first part's text, or `""` when the history is
empty, the last message has no parts, or the part has no text field. -/
def extractHistoryText (history : List MsgObj) : String :=
  match history.getLast? with
  | none => ""
  | some m =>
    match m.parts.head? with
    | none => ""
    | some p => p.text.getD ""

/-- The poll loop of `get_agent_message` (director_worker.py lines 74-100),
with `fuel` attempts remaining and `i` the index of the next attempt.  Returns
the loop's outcome (a string, or an uncaught exception that the surrounding
handlers convert) together with the number of `tasks/get` POSTs issued.
A response lacking a `result` object is skipped (`continue`); a `completed`
state returns the extracted text; a `failed` state returns the remote error
as an error outcome; any other state retries.  When the fuel is exhausted the
loop falls through to the timeout error outcome. -/
def pollLoop (env : A2AEnv) (i : Nat) : Nat → Except PyErr String × Nat
  | 0 => (.ok "[Error: Timeout waiting for response]", 0)
  | fuel + 1 =>
    match env.poll i with
    | .error e => (.error e, 1)
    | .ok resp =>
      match resp.result with
      | none =>
        let p := pollLoop env (i + 1) fuel
        (p.1, p.2 + 1)
      | some t =>
        if t.state.getD "" = "completed" then
          (.ok (extractHistoryText t.history), 1)
        else if t.state.getD "" = "failed" then
          (.ok ("[Error: " ++ t.error.getD "Unknown error" ++ "]"), 1)
        else
          let p := pollLoop env (i + 1) fuel
          (p.1, p.2 + 1)

/-- The body of `get_agent_message`'s `try` block: send, validate the
response, then poll up to 30 times.  `.error` marks an exception that escapes
the body and reaches the `except` handlers. -/
def getAgentBody (env : A2AEnv) : Except PyErr String :=
  match env.send with
  | .error e => .error e
  | .ok resp =>
    match resp.result with
    | none => .ok "[Error: No result in response]"
    | some r =>
      if pyFalsyId r.id then .ok "[Error: No task ID in response]"
      else (pollLoop env 0 30).1

/-- `get_agent_message(url, payload)` (director_worker.py lines 45-109): the
`try` body with every escaping exception converted to its descriptive
error-outcome string by the `except` handlers.  Total by construction — the
handlers cover every exception the body can raise. -/
def getAgentMessage (env : A2AEnv) : String :=
  match getAgentBody env with
  | .ok s => s
  | .error e => pyErrString e

/-- The number of `tasks/get` attempts a full poll loop run issues. -/
def pollAttempts (env : A2AEnv) : Nat := (pollLoop env 0 30).2

/-- A poll response that completes without exception and does not show a
terminal (`completed`/`failed`) state. -/
def pollNonTerminal : Except PyErr PollResp → Bool
  | .error _ => false
  | .ok ⟨none⟩ => true
  | .ok ⟨some t⟩ => !(t.state.getD "" == "completed") && !(t.state.getD "" == "failed")

/-! ## Orchestrator (`DirectorWorker.run_task` in `src/agents/director_worker.py`) -/

/-- The outcome of one downstream agent call as seen after
`asyncio.gather(..., return_exceptions=True)`: either the string returned by
`get_agent_message` or an exception object (stringified). -/
inductive Outcome where
  | str (s : String)
  | exc (e : String)
deriving DecidableEq

/-- The outcome handling of director_worker.py lines 167-177: an exception is
wrapped as `"[Error: ...]"`; an empty or whitespace-only string is replaced by
the section placeholder; any other string passes through verbatim. -/
def handleOutcome (o : Outcome) (placeholder : String) : String :=
  let s :=
    match o with
    | .str s => s
    | .exc e => "[Error: " ++ e ++ "]"
  if s = "" || pyStrip s = "" then placeholder else s

/-- The composed reply of director_worker.py lines 179-189: a fixed two-section
template (summary section, then label section), with the final `.strip()`
applied when building the response message's text part. -/
def composeReply (summaryText labelText : String) : String :=
  pyStrip ("\nOur behind-the-scenes bots formed the following conclusions:\n## Summary:\n"
    ++ summaryText ++ "\n## Label:\n" ++ labelText ++ "\n")

/-- The environment one `DirectorWorker.run_task` execution runs against:
the result of `load_task` (`.error` = the load itself raised), the stored
context (as loaded), the two downstream outcomes from `gather`, an optional
exception raised by the orchestrator's own logic after the task was bound,
and the generated message identifier. -/
structure DirectorEnv where
  loadTask : Except String (Option TaskRec)
  loadContext : Option (List Message)
  sumOutcome : Outcome
  clsOutcome : Outcome
  bodyExc : Option String
  msgId : String

/-- The summary section text the director composes. -/
def directorSummaryText (env : DirectorEnv) : String :=
  handleOutcome env.sumOutcome "[No summary available]"

/-- The label section text the director composes. -/
def directorLabelText (env : DirectorEnv) : String :=
  handleOutcome env.clsOutcome "[No classification available]"

/-- The response message the director appends on success. -/
def directorMessage (env : DirectorEnv) : Message :=
  { role := "agent"
    parts := [composeReply (directorSummaryText env) (directorLabelText env)]
    messageId := env.msgId }

/-- The storage-operation trace of `DirectorWorker.run_task`
(director_worker.py lines 118-207).  If `load_task` raises, the `except`
handler's `if 'task' in locals()` guard is false and no operation is issued;
if it returns `None`, the failed `assert` reaches the handler with `task`
bound to `None` and `task["id"]` itself raises, so again no operation is
issued.  Otherwise the task is set to `working`; an exception in the
orchestrator's own logic afterwards leads to the `failed` update, while any
pair of downstream outcomes leads to the context append and the `completed`
update carrying the composed message. -/
def directorRunOps (env : DirectorEnv) : List StoreOp :=
  match env.loadTask with
  | .error _ => []
  | .ok none => []
  | .ok (some task) =>
    match env.bodyExc with
    | some e =>
      [.updateTask task.id .working [] none,
       .updateTask task.id .failed [] (some e)]
    | none =>
      [.updateTask task.id .working [] none,
       .updateContext task.contextId
         (.msgs (env.loadContext.getD [] ++ task.history ++ [directorMessage env])),
       .updateTask task.id .completed [directorMessage env] none]

/-! ## Leaf worker (`ConfigurableWorker.run_task` in `src/agents/generic_agent.py`) -/

/-- The environment one `ConfigurableWorker.run_task` execution runs against:
the result of `load_task`, the stored context, the outcome of
`_process_text` (`.error` = an exception, e.g. a missing agent spec), and the
generated message identifier. -/
structure GenericEnv where
  loadTask : Except String (Option TaskRec)
  loadContext : Option (List Message)
  processResult : Except String String
  msgId : String

/-- The response message the leaf worker appends on success. -/
def genericMessage (env : GenericEnv) (resultText : String) : Message :=
  { role := "agent", parts := [resultText], messageId := env.msgId }

/-- The storage-operation trace of `ConfigurableWorker.run_task`
(generic_agent.py lines 31-73).  The load-failure cases mirror
`directorRunOps`: no operation is issued.  Otherwise the task is set to
`working`; a processing exception leads to the `failed` update; success leads
to the context append and the `completed` update. -/
def configurableRunOps (env : GenericEnv) : List StoreOp :=
  match env.loadTask with
  | .error _ => []
  | .ok none => []
  | .ok (some task) =>
    match env.processResult with
    | .error e =>
      [.updateTask task.id .working [] none,
       .updateTask task.id .failed [] (some e)]
    | .ok resultText =>
      [.updateTask task.id .working [] none,
       .updateContext task.contextId
         (.msgs (env.loadContext.getD [] ++ task.history ++ [genericMessage env resultText])),
       .updateTask task.id .completed [genericMessage env resultText] none]

/-! ## Legacy director (`DirectorWorker.run_task` in `src/director_agent.py`) -/

/-- The environment one legacy `DirectorWorker.run_task` execution runs
against: the result of `load_task`, the last history message of the
summarizer's polled task (`summary["result"]["history"][-1]`), the last
history message of the classifier's polled task, and an optional point at
which an exception interrupts the body (the trace keeps the operations
already issued; the `except` branch performs no storage operation). -/
structure LegacyEnv where
  loadTask : Except String (Option TaskRec)
  summaryLast : Message
  labelLast : Message
  failAfter : Option Nat

/-- The storage-operation trace of the legacy `DirectorWorker.run_task`
(director_agent.py lines 46-110) on its five storage calls, in source order:
set `working`; overwrite the context with the summarizer's last message
(line 77 passes the single message, not the accumulated list); set
`completed` appending that message; overwrite the context with the
classifier's last message; set `completed` again appending that message. -/
def legacyDirectorOps (env : LegacyEnv) : List StoreOp :=
  match env.loadTask with
  | .error _ => []
  | .ok none => []
  | .ok (some task) =>
    let full : List StoreOp :=
      [.updateTask task.id .working [] none,
       .updateContext task.contextId (.single env.summaryLast),
       .updateTask task.id .completed [env.summaryLast] none,
       .updateContext task.contextId (.single env.labelLast),
       .updateTask task.id .completed [env.labelLast] none]
    match env.failAfter with
    | none => full
    | some k => full.take k

/-! ## Concrete fixtures used by counterexamples and witnesses -/

/-- A freshly submitted task, as created by the task manager before the broker
hands it to a worker. -/
def sampleTask : TaskRec :=
  { id := "t1", contextId := "ctx1", state := .submitted, history := [], error := none }

/-- A message stored in the context by an earlier task of the same
conversation. -/
def samplePriorMessage : Message :=
  { role := "user", parts := ["hello there"], messageId := "m0" }

/-- The summarizer's reply message as polled by the legacy director. -/
def sampleSummaryMessage : Message :=
  { role := "agent", parts := ["a short summary"], messageId := "m-sum" }

/-- The classifier's reply message as polled by the legacy director. -/
def sampleLabelMessage : Message :=
  { role := "agent", parts := ["insurance"], messageId := "m-cls" }

/-- A store holding `sampleTask` and a context with one prior message. -/
def sampleStore : Store :=
  { tasks := fun i => if i = "t1" then some sampleTask else none
    contexts := fun c => if c = "ctx1" then some (.msgs [samplePriorMessage]) else none }

/-- A successful legacy-director execution environment over `sampleTask`. -/
def sampleLegacyEnv : LegacyEnv :=
  { loadTask := .ok (some sampleTask)
    summaryLast := sampleSummaryMessage
    labelLast := sampleLabelMessage
    failAfter := none }

/-- A director execution where the summarizer leg came back as an error
outcome string and the classifier leg succeeded. -/
def c2CounterEnv : DirectorEnv :=
  { loadTask := .ok (some sampleTask)
    loadContext := none
    sumOutcome := .str "[Error: HTTP 500]"
    clsOutcome := .str "ok"
    bodyExc := none
    msgId := "w2" }

/-- A director execution where the summarizer leg came back whitespace-only
and the classifier leg raised. -/
def c2WitnessEnv : DirectorEnv :=
  { loadTask := .ok (some sampleTask)
    loadContext := none
    sumOutcome := .str "   "
    clsOutcome := .exc "boom"
    bodyExc := none
    msgId := "w1" }

/-- A network environment whose initial send raises a request error. -/
def c3WitnessEnv : A2AEnv :=
  { send := .error (.request "connection refused")
    poll := fun _ => .error (.request "connection refused") }

/-- A network environment whose send succeeds and whose polls always report a
non-terminal `working` state. -/
def c4WitnessEnv : A2AEnv :=
  { send := .ok ⟨some ⟨some "task-1"⟩⟩
    poll := fun _ => .ok ⟨some ⟨some "working", [], none⟩⟩ }

/-- A leaf-worker execution whose `load_task` itself raised. -/
def c10GenericEnv : GenericEnv :=
  { loadTask := .error "connection lost"
    loadContext := none
    processResult := .ok "unused"
    msgId := "w10" }

/-- A director execution whose `load_task` itself raised. -/
def c10DirectorEnv : DirectorEnv :=
  { loadTask := .error "connection lost"
    loadContext := none
    sumOutcome := .str "unused"
    clsOutcome := .str "unused"
    bodyExc := none
    msgId := "w10d" }

/-- A 150-character input for the summarizer fallback. -/
def sample150 : String := String.mk (List.replicate 150 'a')

/-- A 50-character input for the summarizer fallback. -/
def sample50 : String := String.mk (List.replicate 50 'b')

/-! ## Helper lemmas on the Python string primitives -/

theorem dropWhile_append_of_ne_nil {p : Char → Bool} {l₁ : List Char} (l₂ : List Char)
    (h : l₁.dropWhile p ≠ []) :
    (l₁ ++ l₂).dropWhile p = l₁.dropWhile p ++ l₂ := by
  induction l₁ with
  | nil => simp [List.dropWhile] at h
  | cons a t ih =>
    by_cases hp : p a
    · rw [List.dropWhile_cons, if_pos hp] at h
      rw [List.cons_append, List.dropWhile_cons, if_pos hp, List.dropWhile_cons, if_pos hp,
        ih h]
    · rw [List.cons_append, List.dropWhile_cons, if_neg hp, List.dropWhile_cons, if_neg hp,
        List.cons_append]

theorem rstripList_append {l₁ l₂ : List Char} (h : rstripList l₂ ≠ []) :
    rstripList (l₁ ++ l₂) = l₁ ++ rstripList l₂ := by
  have h' : l₂.reverse.dropWhile pyIsSpace ≠ [] := by
    intro hc
    apply h
    unfold rstripList
    rw [hc, List.reverse_nil]
  unfold rstripList
  rw [List.reverse_append, dropWhile_append_of_ne_nil _ h', List.reverse_append,
    List.reverse_reverse]

theorem rstripList_append_singleton {l : List Char} {c : Char} (h : pyIsSpace c = true) :
    rstripList (l ++ [c]) = rstripList l := by
  unfold rstripList
  rw [List.reverse_append, List.reverse_singleton, List.singleton_append,
    List.dropWhile_cons, if_pos h]

theorem stripList_eq_nil_iff {l : List Char} :
    stripList l = [] ↔ ∀ x ∈ l, pyIsSpace x := by
  unfold stripList rstripList lstripList
  rw [List.reverse_eq_nil_iff, List.dropWhile_eq_nil_iff]
  constructor
  · intro h x hx
    by_cases hw : pyIsSpace x
    · exact hw
    · rw [← List.takeWhile_append_dropWhile pyIsSpace l] at hx
      rcases List.mem_append.mp hx with h1 | h2
      · exact List.mem_takeWhile_imp h1
      · exact h x (List.mem_reverse.mpr h2)
  · intro h x hx
    exact h x ((List.dropWhile_sublist _).subset (List.mem_reverse.mp hx))

theorem rstripList_ne_nil_of_strip {l : List Char} (h : stripList l ≠ []) :
    rstripList l ≠ [] := by
  intro hr
  apply h
  rw [stripList_eq_nil_iff]
  intro x hx
  have h1 : l.reverse.dropWhile pyIsSpace = [] := by
    unfold rstripList at hr
    rw [List.reverse_eq_nil_iff] at hr
    exact hr
  rw [List.dropWhile_eq_nil_iff] at h1
  exact h1 x (List.mem_reverse.mpr hx)

theorem pyStrip_data (s : String) : (pyStrip s).data = stripList s.data := rfl

theorem pyStrip_eq_empty_iff {s : String} :
    pyStrip s = "" ↔ stripList s.data = [] := by
  constructor
  · intro h
    exact congrArg String.data h
  · intro h
    exact String.ext h

theorem pyStrip_ne_empty_iff {s : String} :
    pyStrip s ≠ "" ↔ stripList s.data ≠ [] :=
  not_congr pyStrip_eq_empty_iff

/-- The composed-reply equation: when the label text is not whitespace-only,
the final `.strip()` removes exactly the template's leading newline and the
trailing newline plus the label text's own trailing whitespace, so the
composed reply is the literal header, the summary text verbatim, the literal
section separator, and the right-stripped label text — in that order. -/
theorem composeReply_eq (s c : String) (hc : pyStrip c ≠ "") :
    composeReply s c =
      "Our behind-the-scenes bots formed the following conclusions:\n## Summary:\n"
        ++ s ++ "\n## Label:\n" ++ pyRstrip c := by
  apply String.ext
  have hdata :
      ("\nOur behind-the-scenes bots formed the following conclusions:\n## Summary:\n"
          ++ s ++ "\n## Label:\n" ++ c ++ "\n").data =
        "\nOur behind-the-scenes bots formed the following conclusions:\n## Summary:\n".data
          ++ (s.data ++ ("\n## Label:\n".data ++ (c.data ++ "\n".data))) := by
    simp [String.data_append, List.append_assoc]
  show stripList _ = _
  rw [hdata]
  unfold stripList
  have hlstrip :
      lstripList
          ("\nOur behind-the-scenes bots formed the following conclusions:\n## Summary:\n".data
            ++ (s.data ++ ("\n## Label:\n".data ++ (c.data ++ "\n".data)))) =
        "Our behind-the-scenes bots formed the following conclusions:\n## Summary:\n".data
          ++ (s.data ++ ("\n## Label:\n".data ++ (c.data ++ "\n".data))) := by
    unfold lstripList
    rw [dropWhile_append_of_ne_nil _ (by decide)]
    have hd :
        List.dropWhile pyIsSpace
            "\nOur behind-the-scenes bots formed the following conclusions:\n## Summary:\n".data =
          "Our behind-the-scenes bots formed the following conclusions:\n## Summary:\n".data := by
      decide
    rw [hd]
  rw [hlstrip]
  have hre :
      "Our behind-the-scenes bots formed the following conclusions:\n## Summary:\n".data
          ++ (s.data ++ ("\n## Label:\n".data ++ (c.data ++ "\n".data))) =
        ("Our behind-the-scenes bots formed the following conclusions:\n## Summary:\n".data
          ++ s.data ++ "\n## Label:\n".data) ++ (c.data ++ ['\n']) := by
    simp [List.append_assoc]
  rw [hre]
  have hc2 : rstripList (c.data ++ ['\n']) ≠ [] := by
    rw [rstripList_append_singleton (by decide)]
    exact rstripList_ne_nil_of_strip (pyStrip_ne_empty_iff.mp hc)
  rw [rstripList_append hc2, rstripList_append_singleton (by decide)]
  simp [String.data_append, pyRstrip, List.append_assoc]

theorem pyContains_eq_true_iff {hay needle : String} :
    pyContains hay needle = true ↔ needle.data <:+: hay.data := by
  unfold pyContains
  exact decide_eq_true_iff

/-! ## C5: classifier fallback -/

/-- Claim C5: for the classifier fallback path with categories
`["insurance","medical","general"]` and fallback keywords
`insurance ↦ ["claim"]`, every input containing `"claim"` resolves to
`"insurance"`, and every input matching no configured keyword resolves to the
last configured category, `"general"`. -/
theorem c5_classifier_fallback (text : String) :
    (pyContains text "claim" = true →
      fallbackClassify claimFallbackKeywords claimCategories text = "insurance")
  ∧ (pyContains (pyLower text) "claim" = false →
      fallbackClassify claimFallbackKeywords claimCategories text = "general") := by
  constructor
  · intro h
    have hinf : "claim".data <:+: text.data := pyContains_eq_true_iff.mp h
    have hlow : "claim".data <:+: (pyLower text).data := by
      have hmap := hinf.map Char.toLower
      have he : "claim".data.map Char.toLower = "claim".data := by decide
      rw [he] at hmap
      exact hmap
    have hc : pyContains (pyLower text) "claim" = true := pyContains_eq_true_iff.mpr hlow
    simp [fallbackClassify, claimFallbackKeywords, List.find?, hc]
  · intro h
    simp [fallbackClassify, claimFallbackKeywords, claimCategories, List.find?, h]

/-- Witness for C5: a text containing `"claim"` classifies as `"insurance"`,
and a text matching no keyword classifies as `"general"`. -/
theorem c5_classifier_fallback_witness :
    pyContains "please process my claim" "claim" = true
  ∧ fallbackClassify claimFallbackKeywords claimCategories "please process my claim" = "insurance"
  ∧ pyContains (pyLower "hello world") "claim" = false
  ∧ fallbackClassify claimFallbackKeywords claimCategories "hello world" = "general" :=
  ⟨by decide, (c5_classifier_fallback "please process my claim").1 (by decide),
   by decide, (c5_classifier_fallback "hello world").2 (by decide)⟩

/-! ## C6: summarizer fallback -/

/-- Claim C6: for the summarizer fallback path with fallback length 100,
every input longer than 100 characters yields exactly its first 100
characters followed by the ellipsis marker (so 103 characters in total), and
every input of at most 100 characters is returned unchanged. -/
theorem c6_summarizer_fallback (text : String) :
    (100 < pyLen text →
      fallbackSummarize 100 text = pyTake text 100 ++ "..."
        ∧ pyLen (fallbackSummarize 100 text) = 103)
  ∧ (pyLen text ≤ 100 → fallbackSummarize 100 text = text) := by
  constructor
  · intro h
    have he : fallbackSummarize 100 text = pyTake text 100 ++ "..." := by
      unfold fallbackSummarize
      rw [if_pos h]
    refine ⟨he, ?_⟩
    rw [he]
    have hd : (pyTake text 100 ++ "...").data = text.data.take 100 ++ "...".data :=
      String.data_append _ _
    unfold pyLen at h ⊢
    rw [hd, List.length_append, List.length_take]
    have h3 : ("..." : String).data.length = 3 := by decide
    omega
  · intro h
    unfold fallbackSummarize
    rw [if_neg (by omega)]

/-- Witness for C6: a 150-character input truncates to its first 100
characters plus the ellipsis marker (103 characters); a 50-character input is
returned unchanged. -/
theorem c6_summarizer_fallback_witness :
    (100 < pyLen sample150
      ∧ fallbackSummarize 100 sample150 = pyTake sample150 100 ++ "..."
      ∧ pyLen (fallbackSummarize 100 sample150) = 103)
  ∧ (pyLen sample50 ≤ 100 ∧ fallbackSummarize 100 sample50 = sample50) := by
  have h150 : pyLen sample150 = 150 := by simp [sample150, pyLen]
  have h50 : pyLen sample50 = 50 := by simp [sample50, pyLen]
  have h1 := (c6_summarizer_fallback sample150).1 (by omega)
  have h2 := (c6_summarizer_fallback sample50).2 (by omega)
  exact ⟨⟨by omega, h1.1, h1.2⟩, by omega, h2⟩

/-! ## C8: composed reply section order -/

/-- Claim C8 (amended): for downstream results `s` (summary) and `c` (label)
with `c` not whitespace-only, the composed reply is exactly the fixed header,
then `s` verbatim, then the fixed separator, then `c` with its trailing
whitespace removed — so it contains `s` and the right-stripped `c`, summary
section before label section.  (`c` itself appears verbatim whenever it has
no trailing whitespace, since then `pyRstrip c = c`.) -/
theorem c8_composed_reply_sections (s c : String) (hc : pyStrip c ≠ "") :
    composeReply s c =
      "Our behind-the-scenes bots formed the following conclusions:\n## Summary:\n"
        ++ s ++ "\n## Label:\n" ++ pyRstrip c
  ∧ pyContains (composeReply s c) s = true
  ∧ pyContains (composeReply s c) (pyRstrip c) = true := by
  have he := composeReply_eq s c hc
  refine ⟨he, ?_, ?_⟩
  · rw [pyContains_eq_true_iff, he]
    refine ⟨"Our behind-the-scenes bots formed the following conclusions:\n## Summary:\n".data,
      "\n## Label:\n".data ++ (pyRstrip c).data, ?_⟩
    simp [String.data_append, List.append_assoc]
  · rw [pyContains_eq_true_iff, he]
    refine ⟨"Our behind-the-scenes bots formed the following conclusions:\n## Summary:\n".data
      ++ s.data ++ "\n## Label:\n".data, [], ?_⟩
    simp [String.data_append, List.append_assoc]

set_option maxRecDepth 8000 in
/-- Witness for C8 (amended): with summary `"X"` and label `"Y"` the composed
reply is the two-section template containing `"X"` before `"Y"`. -/
theorem c8_composed_reply_sections_witness :
    composeReply "X" "Y" =
      "Our behind-the-scenes bots formed the following conclusions:\n## Summary:\nX\n## Label:\nY"
  ∧ pyContains (composeReply "X" "Y") "X" = true
  ∧ pyContains (composeReply "X" "Y") "Y" = true := by
  have h := c8_composed_reply_sections "X" "Y" (by decide)
  refine ⟨?_, h.2.1, ?_⟩
  · rw [h.1]
    decide
  · have h3 := h.2.2
    have hr : pyRstrip "Y" = "Y" := by decide
    rwa [hr] at h3

set_option maxRecDepth 8000 in
/-- Counterexample for C8 as stated: the label result `"Y "` is non-empty,
non-error and not whitespace-only, yet the final `.strip()` of the composed
template removes its trailing space, so the composed reply does not contain
`"Y "` — the claim's "contains both X and Y" fails for results with trailing
whitespace. -/
theorem c8_trailing_whitespace_cex :
    handleOutcome (.str "Y ") "[No classification available]" = "Y "
  ∧ pyStrip "Y " ≠ ""
  ∧ composeReply "X" "Y " =
      "Our behind-the-scenes bots formed the following conclusions:\n## Summary:\nX\n## Label:\nY"
  ∧ pyContains (composeReply "X" "Y ") "Y " = false := by
  refine ⟨by decide, by decide, by decide, by decide⟩

/-! ## C9: the two classifier default branches -/

/-- Claim C9 (amended): whenever the configured category list has distinct
first and last entries, an LLM response mentioning no configured category
post-processes to the FIRST category while a fallback input matching no
configured keyword resolves to the LAST category — so the two default
branches disagree. -/
theorem c9_default_branches_disagree (cats : List String)
    (kws : List (String × List String)) (response text f l : String)
    (hf : cats.head? = some f) (hl : cats.getLast? = some l) (hne : f ≠ l)
    (hresp : ∀ c ∈ cats, pyContains (pyLower (pyStrip response)) c = false)
    (htext : ∀ kw ∈ kws, ∀ k ∈ kw.2, pyContains (pyLower text) k = false) :
    postProcessClassify cats response = f
  ∧ fallbackClassify kws cats text = l
  ∧ postProcessClassify cats response ≠ fallbackClassify kws cats text := by
  have hfind : cats.find? (fun c => pyContains (pyLower (pyStrip response)) c) = none := by
    rw [List.find?_eq_none]
    intro x hx
    simp [hresp x hx]
  have hfind2 :
      kws.find? (fun kw => kw.2.any (fun k => pyContains (pyLower text) k)) = none := by
    rw [List.find?_eq_none]
    intro kw hkw
    have hany : kw.2.any (fun k => pyContains (pyLower text) k) = false := by
      rw [List.any_eq_false]
      intro k hk
      simp [htext kw hkw k hk]
    simp [hany]
  have h1 : postProcessClassify cats response = f := by
    simp [postProcessClassify, hfind, hf]
  have h2 : fallbackClassify kws cats text = l := by
    simp [fallbackClassify, hfind2, hl]
  exact ⟨h1, h2, by rw [h1, h2]; exact hne⟩

/-- Witness for C9 (amended): with the configured categories
`["insurance","medical","general"]` and keywords `insurance ↦ ["claim"]`,
the unmatchable input `"zzz"` post-processes to `"insurance"` with the LLM
available and falls back to `"general"` without it. -/
theorem c9_default_branches_disagree_witness :
    postProcessClassify claimCategories "zzz" = "insurance"
  ∧ fallbackClassify claimFallbackKeywords claimCategories "zzz" = "general"
  ∧ postProcessClassify claimCategories "zzz"
      ≠ fallbackClassify claimFallbackKeywords claimCategories "zzz" :=
  c9_default_branches_disagree claimCategories claimFallbackKeywords "zzz" "zzz"
    "insurance" "general" (by decide) (by decide) (by decide) (by decide) (by decide)

/-- Counterexample for C9 as stated: the category list
`["insurance","general","insurance"]` has two distinct entries, yet its first
and last entries coincide, so the unmatchable input `"zzz"` classifies to
`"insurance"` under BOTH branches — the claimed disagreement fails. -/
theorem c9_first_last_equal_cex :
    (["insurance", "general", "insurance"] : List String).head? = some "insurance"
  ∧ (["insurance", "general", "insurance"] : List String).getLast? = some "insurance"
  ∧ ("insurance" : String) ≠ "general"
  ∧ pyContains (pyLower (pyStrip "zzz")) "insurance" = false
  ∧ pyContains (pyLower (pyStrip "zzz")) "general" = false
  ∧ pyContains (pyLower "zzz") "claim" = false
  ∧ postProcessClassify ["insurance", "general", "insurance"] "zzz" = "insurance"
  ∧ fallbackClassify claimFallbackKeywords ["insurance", "general", "insurance"] "zzz"
      = "insurance"
  ∧ postProcessClassify ["insurance", "general", "insurance"] "zzz"
      = fallbackClassify claimFallbackKeywords ["insurance", "general", "insurance"] "zzz" := by
  refine ⟨by decide, by decide, by decide, by decide, by decide, by decide, by decide,
    by decide, by decide⟩

/-! ## C3 and C4: the A2A client -/

theorem pollLoop_count_le (env : A2AEnv) : ∀ fuel i : Nat, (pollLoop env i fuel).2 ≤ fuel := by
  intro fuel
  induction fuel with
  | zero =>
    intro i
    simp [pollLoop]
  | succ n ih =>
    intro i
    unfold pollLoop
    cases hp : env.poll i with
    | error e => simp
    | ok resp =>
      cases hr : resp.result with
      | none =>
        have := ih (i + 1)
        simp only [hr]
        simp
        omega
      | some t =>
        simp only [hr]
        by_cases h1 : t.state.getD "" = "completed"
        · simp [h1]
        · by_cases h2 : t.state.getD "" = "failed"
          · simp [h1, h2]
          · have := ih (i + 1)
            simp [h1, h2]
            omega

theorem pollLoop_timeout (env : A2AEnv) :
    ∀ fuel i : Nat,
      (∀ j, i ≤ j → j < i + fuel → pollNonTerminal (env.poll j) = true) →
      pollLoop env i fuel = (.ok "[Error: Timeout waiting for response]", fuel) := by
  intro fuel
  induction fuel with
  | zero =>
    intro i _
    rfl
  | succ n ih =>
    intro i h
    have hi := h i (Nat.le_refl i) (by omega)
    have hrest := ih (i + 1) (fun j h1 h2 => h j (by omega) (by omega))
    unfold pollLoop
    cases hp : env.poll i with
    | error e =>
      rw [hp] at hi
      simp [pollNonTerminal] at hi
    | ok resp =>
      obtain ⟨res⟩ := resp
      rw [hp] at hi
      cases res with
      | none => simp [hrest]
      | some t =>
        have hb := hi
        simp only [pollNonTerminal, Bool.and_eq_true, Bool.not_eq_true', beq_eq_false_iff_ne,
          ne_eq] at hb
        simp [hb.1, hb.2, hrest]

/-- Claim C4: the A2A client's poll loop is bounded — it issues at most 30
`tasks/get` attempts, and when every attempt completes without a network
error and none observes a terminal (`completed`/`failed`) state, the loop
exhausts exactly its 30 attempts and `get_agent_message` returns the timeout
error outcome (given a send that produced a usable task identifier) instead
of polling forever. -/
theorem c4_poll_loop_bounded (env : A2AEnv) :
    pollAttempts env ≤ 30
  ∧ ((∀ i, i < 30 → pollNonTerminal (env.poll i) = true) →
      (pollLoop env 0 30).1 = .ok "[Error: Timeout waiting for response]"
      ∧ pollAttempts env = 30
      ∧ (∀ resp r, env.send = .ok resp → resp.result = some r → pyFalsyId r.id = false →
          getAgentMessage env = "[Error: Timeout waiting for response]")) := by
  constructor
  · exact pollLoop_count_le env 30 0
  · intro h
    have ht := pollLoop_timeout env 30 0 (fun j _ h2 => h j (by omega))
    refine ⟨by rw [ht], by unfold pollAttempts; rw [ht], ?_⟩
    intro resp r hs hr hid
    unfold getAgentMessage getAgentBody
    simp [hs, hr, hid, ht]

/-- Witness for C4: against an endpoint that always reports `working`, the
client issues exactly 30 `tasks/get` attempts and returns the timeout error
outcome. -/
theorem c4_poll_loop_bounded_witness :
    getAgentMessage c4WitnessEnv = "[Error: Timeout waiting for response]"
  ∧ pollAttempts c4WitnessEnv = 30 := by
  have h := (c4_poll_loop_bounded c4WitnessEnv).2 (by intro i _; rfl)
  exact ⟨h.2.2 ⟨some ⟨some "task-1"⟩⟩ ⟨some "task-1"⟩ rfl rfl (by decide), h.2.1⟩

/-- Claim C3: the A2A client's send operation is total over its error cases —
every exception escaping the request/poll body (HTTP status error, request
error, other exception) is converted to its descriptive error-outcome string,
a send response lacking a `result` object returns the explicit no-result
error outcome, and a send response whose result lacks a usable task
identifier returns the explicit no-task-id error outcome; in every case the
function returns a string rather than propagating the exception. -/
theorem c3_client_total_error_cases (env : A2AEnv) :
    (∀ e, getAgentBody env = .error e → getAgentMessage env = pyErrString e)
  ∧ (∀ e, env.send = .error e → getAgentMessage env = pyErrString e)
  ∧ (∀ resp, env.send = .ok resp → resp.result = none →
      getAgentMessage env = "[Error: No result in response]")
  ∧ (∀ resp r, env.send = .ok resp → resp.result = some r → pyFalsyId r.id = true →
      getAgentMessage env = "[Error: No task ID in response]") := by
  refine ⟨?_, ?_, ?_, ?_⟩
  · intro e he
    unfold getAgentMessage
    rw [he]
  · intro e he
    unfold getAgentMessage getAgentBody
    simp [he]
  · intro resp hs hr
    unfold getAgentMessage getAgentBody
    simp [hs, hr]
  · intro resp r hs hr hid
    unfold getAgentMessage getAgentBody
    simp [hs, hr, hid]

/-- Witness for C3: a connection failure on the initial send becomes the
descriptive request-error outcome string. -/
theorem c3_client_total_error_cases_witness :
    getAgentMessage c3WitnessEnv = "[Error: Request failed: connection refused]" := by
  have h := (c3_client_total_error_cases c3WitnessEnv).2.1 (.request "connection refused") rfl
  rw [h]
  decide

/-! ## C2: partial downstream failure in the orchestrator -/

theorem errWrap_ne_empty (e : String) : ("[Error: " ++ e ++ "]" : String) ≠ "" := by
  intro hc
  have hd := congrArg String.data hc
  simp [String.data_append] at hd

theorem pyStrip_errWrap_ne_empty (e : String) : pyStrip ("[Error: " ++ e ++ "]") ≠ "" := by
  intro hc
  rw [pyStrip_eq_empty_iff, stripList_eq_nil_iff] at hc
  have hmem : ('[' : Char) ∈ ("[Error: " ++ e ++ "]").data := by
    rw [String.data_append, String.data_append]
    exact List.mem_append.mpr (Or.inl (List.mem_append.mpr (Or.inl (by decide))))
  have hw := hc '[' hmem
  exact absurd hw (by decide)

/-- Claim C2 (amended): for every orchestrated task whose record loads and
whose own logic raises no exception, any pair of downstream outcomes — error
outcome strings, empty/whitespace-only strings or exceptions included — leads
to the context append and a final `completed` update and never to a `failed`
update; an empty or whitespace-only downstream string is replaced by that
section's fixed placeholder, and a downstream exception is embedded as its
`"[Error: ...]"` wrapping (an error-outcome STRING returned by the client is
embedded verbatim, not replaced by the placeholder). -/
theorem c2_director_partial_failure (env : DirectorEnv) (task : TaskRec)
    (h : env.loadTask = .ok (some task)) (hb : env.bodyExc = none) :
    directorRunOps env =
      [.updateTask task.id .working [] none,
       .updateContext task.contextId
         (.msgs (env.loadContext.getD [] ++ task.history ++ [directorMessage env])),
       .updateTask task.id .completed [directorMessage env] none]
  ∧ (∀ op ∈ directorRunOps env, op.isFailedUpdate = false)
  ∧ (∀ s, env.sumOutcome = .str s → pyStrip s = "" →
      directorSummaryText env = "[No summary available]")
  ∧ (∀ s, env.clsOutcome = .str s → pyStrip s = "" →
      directorLabelText env = "[No classification available]")
  ∧ (∀ e, env.sumOutcome = .exc e → directorSummaryText env = "[Error: " ++ e ++ "]")
  ∧ (∀ e, env.clsOutcome = .exc e → directorLabelText env = "[Error: " ++ e ++ "]") := by
  have hops : directorRunOps env =
      [.updateTask task.id .working [] none,
       .updateContext task.contextId
         (.msgs (env.loadContext.getD [] ++ task.history ++ [directorMessage env])),
       .updateTask task.id .completed [directorMessage env] none] := by
    unfold directorRunOps
    rw [h, hb]
  refine ⟨hops, ?_, ?_, ?_, ?_, ?_⟩
  · intro op hop
    rw [hops] at hop
    simp only [List.mem_cons, List.not_mem_nil, or_false] at hop
    rcases hop with h1 | h1 | h1 <;> subst h1 <;> rfl
  · intro s hs hempty
    unfold directorSummaryText handleOutcome
    rw [hs]
    simp [hempty]
  · intro s hs hempty
    unfold directorLabelText handleOutcome
    rw [hs]
    simp [hempty]
  · intro e he
    unfold directorSummaryText handleOutcome
    rw [he]
    simp [errWrap_ne_empty e, pyStrip_errWrap_ne_empty e]
  · intro e he
    unfold directorLabelText handleOutcome
    rw [he]
    simp [errWrap_ne_empty e, pyStrip_errWrap_ne_empty e]

/-- Witness for C2 (amended): with a whitespace-only summary leg and an
exception on the classifier leg, the summary section becomes the placeholder,
the label section the wrapped error, and the task trace still ends in the
`completed` update with no `failed` update. -/
theorem c2_director_partial_failure_witness :
    directorSummaryText c2WitnessEnv = "[No summary available]"
  ∧ directorLabelText c2WitnessEnv = "[Error: boom]"
  ∧ (∀ op ∈ directorRunOps c2WitnessEnv, op.isFailedUpdate = false)
  ∧ directorRunOps c2WitnessEnv =
      [.updateTask "t1" .working [] none,
       .updateContext "ctx1" (.msgs [directorMessage c2WitnessEnv]),
       .updateTask "t1" .completed [directorMessage c2WitnessEnv] none] := by
  have h := c2_director_partial_failure c2WitnessEnv sampleTask rfl rfl
  refine ⟨h.2.2.1 "   " rfl (by decide), h.2.2.2.2.2 "boom" rfl, h.2.1, ?_⟩
  rw [h.1]
  rfl

set_option maxRecDepth 20000 in
/-- Counterexample for C2 as stated: a downstream ERROR-OUTCOME STRING (here
`"[Error: HTTP 500]"` from the A2A client) is embedded verbatim in its
section of the composed reply — the section is not replaced by a bounded
placeholder string: neither the fixed placeholder `"[No summary available]"`
nor the spec's `"no data available"` occurs in the composed reply.  (The
completion half of the claim does hold: the trace still ends `completed`.) -/
theorem c2_error_outcome_not_placeholder :
    handleOutcome (.str "[Error: HTTP 500]") "[No summary available]" = "[Error: HTTP 500]"
  ∧ directorSummaryText c2CounterEnv = "[Error: HTTP 500]"
  ∧ composeReply "[Error: HTTP 500]" "ok" =
      "Our behind-the-scenes bots formed the following conclusions:\n## Summary:\n[Error: HTTP 500]\n## Label:\nok"
  ∧ pyContains (composeReply "[Error: HTTP 500]" "ok") "[No summary available]" = false
  ∧ pyContains (composeReply "[Error: HTTP 500]" "ok") "no data available" = false
  ∧ (directorRunOps c2CounterEnv).getLast? =
      some (.updateTask "t1" .completed [directorMessage c2CounterEnv] none) := by
  refine ⟨by decide, by decide, by decide, by decide, by decide, rfl⟩

/-! ## C1 and C7: the legacy director against the Task/Context Store -/

/-- Claim C1 evaluation (code bug): on a successful run of the legacy
director (`src/director_agent.py`), the trace sets the task `completed` with
the summarizer's message (operation 3) and then issues a FURTHER
`update_task` appending the classifier's message to the already-terminal
task (operation 5) — after three operations the stored task is terminal with
history `[summary]`, and after all five its history has grown to
`[summary, label]`, violating terminal-state immutability. -/
theorem c1_legacy_terminal_update_eval :
    legacyDirectorOps sampleLegacyEnv =
      [.updateTask "t1" .working [] none,
       .updateContext "ctx1" (.single sampleSummaryMessage),
       .updateTask "t1" .completed [sampleSummaryMessage] none,
       .updateContext "ctx1" (.single sampleLabelMessage),
       .updateTask "t1" .completed [sampleLabelMessage] none]
  ∧ (applyOps sampleStore ((legacyDirectorOps sampleLegacyEnv).take 3)).tasks "t1" =
      some { id := "t1", contextId := "ctx1", state := .completed,
             history := [sampleSummaryMessage], error := none }
  ∧ (applyOps sampleStore (legacyDirectorOps sampleLegacyEnv)).tasks "t1" =
      some { id := "t1", contextId := "ctx1", state := .completed,
             history := [sampleSummaryMessage, sampleLabelMessage], error := none } := by
  refine ⟨rfl, rfl, rfl⟩

/-- Claim C7 evaluation (code bug): the legacy director's
`update_context(task["context_id"], last_part)` overwrites the stored context
with a single message — after a successful run over a context holding a
prior message, `load_context` returns only the classifier's last message and
the previously stored message is no longer retrievable, violating
append-only message history. -/
theorem c7_legacy_context_clobber_eval :
    sampleStore.contexts "ctx1" = some (.msgs [samplePriorMessage])
  ∧ (applyOps sampleStore (legacyDirectorOps sampleLegacyEnv)).contexts "ctx1" =
      some (.single sampleLabelMessage)
  ∧ samplePriorMessage ∉ contextMessages (ContextVal.single sampleLabelMessage)
  ∧ contextMessages (ContextVal.single sampleLabelMessage) = [sampleLabelMessage] := by
  refine ⟨rfl, rfl, by decide, rfl⟩

/-! ## C10: load failure leaves the task untouched -/

/-- Claim C10: if `load_task` itself raises before the task record is bound,
both workers' `except` handlers are guarded by `'task' in locals()` and
record nothing — the run issues no storage operation at all, so the task
identified by the request keeps its prior (non-terminal) state and is never
transitioned to `failed`. -/
theorem c10_load_failure_leaves_task_unchanged (e : String) (envG : GenericEnv)
    (envD : DirectorEnv) (st : Store)
    (hG : envG.loadTask = .error e) (hD : envD.loadTask = .error e) :
    configurableRunOps envG = []
  ∧ directorRunOps envD = []
  ∧ applyOps st (configurableRunOps envG) = st
  ∧ applyOps st (directorRunOps envD) = st := by
  have h1 : configurableRunOps envG = [] := by
    unfold configurableRunOps
    rw [hG]
  have h2 : directorRunOps envD = [] := by
    unfold directorRunOps
    rw [hD]
  exact ⟨h1, h2, by rw [h1]; rfl, by rw [h2]; rfl⟩

/-- Witness for C10: with `load_task` raising `"connection lost"`, neither
worker issues any storage operation and the store is unchanged. -/
theorem c10_load_failure_witness :
    configurableRunOps c10GenericEnv = []
  ∧ directorRunOps c10DirectorEnv = []
  ∧ applyOps sampleStore (configurableRunOps c10GenericEnv) = sampleStore := by
  have h := c10_load_failure_leaves_task_unchanged "connection lost" c10GenericEnv
    c10DirectorEnv sampleStore rfl rfl
  exact ⟨h.1, h.2.1, h.2.2.1⟩
